import Mathlib

/-!
Verification of the batch admission/eligibility pipeline
(`src/workflow`): data model, normalizer, rule engine, quality gate and
readers, shallowly embedded in Lean, with theorems about the properties
stated in the specification.

Python machine floats are embedded as `PyFloat`: an exact rational for
finite values plus the special values `inf`, `-inf` and `nan`; rate
arithmetic (`valid/total` etc.) is carried out exactly over `ℚ`.
-/

namespace Workflow

/-! ## Data model (src/workflow/models.py) -/

/-- `Severity` enum from models.py. -/
inductive Severity
  | LOW
  | MEDIUM
  | HIGH
deriving DecidableEq, Repr

/-- `Decision` enum from models.py. -/
inductive Decision
  | ACCEPT
  | REJECT
deriving DecidableEq, Repr

/-- A Python float value: a finite rational, one of the two infinities,
or NaN.  Finite values are exact rationals. -/
inductive PyFloat
  | fin (q : ℚ)
  | inf
  | ninf
  | nan
deriving DecidableEq, Repr

/-- Python `<` on floats: NaN is incomparable (every comparison with it
is false); `-inf <` every finite value `< inf`. -/
def pyLt : PyFloat → PyFloat → Bool
  | .fin a, .fin b => a < b
  | .fin _, .inf => true
  | .ninf, .fin _ => true
  | .ninf, .inf => true
  | _, _ => false

/-- Python `>` on floats. -/
def pyGt (a b : PyFloat) : Bool := pyLt b a

/-- A Python `datetime.date` value (already validated at construction). -/
structure PyDate where
  year : ℕ
  month : ℕ
  day : ℕ
deriving DecidableEq, Repr

/-- `RawRequest` from models.py: all nine required fields as strings. -/
structure RawRequest where
  id_solicitud : String
  fecha_solicitud : String
  tipo_producto : String
  id_cliente : String
  monto_o_limite : String
  moneda : String
  pais : String
  is_vip : String
  risk_score : String
deriving DecidableEq, Repr

/-- `NormalizedRequest` from models.py: the typed projection of a
`RawRequest`. -/
structure NormalizedRequest where
  id_solicitud : String
  fecha_solicitud : PyDate
  tipo_producto : String
  id_cliente : String
  monto_o_limite : PyFloat
  moneda : String
  pais : String
  is_vip : Bool
  risk_score : ℤ
  risk_bucket : String
deriving DecidableEq, Repr

/-- `RuleFailure` from models.py. -/
structure RuleFailure where
  rule_id : String
  severity : Severity
  reason : String
deriving DecidableEq, Repr

/-- `ValidationResult` from models.py (`failures` is the ordered tuple of
rule failures). -/
structure ValidationResult where
  decision : Decision
  failures : List RuleFailure
deriving DecidableEq, Repr

/-! ## Rule engine (src/workflow/engine.py, src/workflow/rules.py) -/

/-- The structural `Rule` protocol from rules.py: a stable `rule_id`, a
`severity`, and a `check` returning a reason on failure, `none` on pass. -/
structure Rule where
  rule_id : String
  severity : Severity
  check : NormalizedRequest → Option String

/-- `validate` from engine.py: run every rule in list order, collect the
non-none reasons as `RuleFailure`s, decide ACCEPT when none failed. -/
def validate (r : NormalizedRequest) (rules : List Rule) : ValidationResult :=
  let failures := rules.foldl
    (fun acc rule =>
      match rule.check r with
      | some reason => acc ++ [⟨rule.rule_id, rule.severity, reason⟩]
      | none => acc)
    []
  if failures.isEmpty then
    ⟨Decision.ACCEPT, []⟩
  else
    ⟨Decision.REJECT, failures⟩

/-! ## Risk bucket (src/workflow/normalize.py) -/

/-- `_risk_bucket` from normalize.py. -/
def risk_bucket (score : ℤ) : String :=
  if score < 34 then "LOW"
  else if score < 67 then "MED"
  else "HIGH"

/-! ## String helpers (Python `str.strip/lower/upper`, restricted to
ASCII; defined over the character list so they evaluate in the kernel) -/

/-- Python `str.strip()`: drop leading and trailing whitespace. -/
def pyStrip (s : String) : String :=
  String.mk (((s.toList.dropWhile Char.isWhitespace).reverse.dropWhile
    Char.isWhitespace).reverse)

/-- Python `str.lower()` (ASCII). -/
def pyLower (s : String) : String := String.mk (s.toList.map Char.toLower)

/-- Python `str.upper()` (ASCII). -/
def pyUpper (s : String) : String := String.mk (s.toList.map Char.toUpper)

/-- Split a character list on a separator character (Python
`str.split(sep)`: `n` separators yield `n + 1` groups). -/
def splitOnChar (sep : Char) : List Char → List (List Char)
  | [] => [[]]
  | c :: rest =>
    let r := splitOnChar sep rest
    if c = sep then [] :: r
    else
      match r with
      | g :: gs => (c :: g) :: gs
      | [] => [[c]]

/-! ## String parsing helpers (Python `int()` / `float()` semantics,
restricted to ASCII digits) -/

/-- A valid Python digit run: nonempty ASCII digits, with single
underscores allowed only between two digits. -/
def validDigitRun : List Char → Bool
  | [] => false
  | [c] => c.isDigit
  | c :: '_' :: rest => c.isDigit && validDigitRun rest
  | c :: rest => c.isDigit && validDigitRun rest

/-- Numeric value of a digit run, ignoring underscores. -/
def digitsVal (cs : List Char) : ℕ :=
  cs.foldl (fun acc c => if c = '_' then acc else acc * 10 + (c.toNat - 48)) 0

/-- Number of actual digits in a run (underscores excluded). -/
def digitCount (cs : List Char) : ℕ :=
  (cs.filter (fun c => c ≠ '_')).length

/-- Python `int(s)`: optional sign then a digit run. -/
def pyParseInt (s : String) : Option ℤ :=
  match (pyStrip s).toList with
  | '+' :: rest => if validDigitRun rest then some (digitsVal rest : ℤ) else none
  | '-' :: rest => if validDigitRun rest then some (-(digitsVal rest : ℤ)) else none
  | rest => if validDigitRun rest then some (digitsVal rest : ℤ) else none

/-- Split a char list at the first occurrence of `sep`; `none` when `sep`
is absent. -/
def splitFirst (cs : List Char) (sep : Char) : List Char × Option (List Char) :=
  match cs with
  | [] => ([], none)
  | c :: rest =>
    if c = sep then ([], some rest)
    else
      let (a, b) := splitFirst rest sep
      (c :: a, b)

/-- Parse an (already lowercased, unsigned) decimal float literal:
`intpart [. fracpart] [e[sign]digits]`, at least one mantissa digit. -/
def parseDecimal (cs : List Char) : Option ℚ :=
  let (mant, expPart) := splitFirst cs 'e'
  let expVal : Option ℤ :=
    match expPart with
    | none => some 0
    | some ecs =>
      match ecs with
      | '+' :: r => if validDigitRun r then some (digitsVal r : ℤ) else none
      | '-' :: r => if validDigitRun r then some (-(digitsVal r : ℤ)) else none
      | r => if validDigitRun r then some (digitsVal r : ℤ) else none
  match expVal with
  | none => none
  | some e =>
    let (ip, fpOpt) := splitFirst mant '.'
    let fp := fpOpt.getD []
    let ipOk := ip.isEmpty || validDigitRun ip
    let fpOk := fp.isEmpty || validDigitRun fp
    if ipOk && fpOk && !(ip.isEmpty && fp.isEmpty) then
      let base : ℚ := (digitsVal ip : ℚ) + (digitsVal fp : ℚ) / (10 : ℚ) ^ digitCount fp
      if 0 ≤ e then some (base * (10 : ℚ) ^ e.toNat)
      else some (base / (10 : ℚ) ^ (-e).toNat)
    else none

/-- Unsigned part of Python `float(s)`: `inf`, `infinity`, `nan`
(case-insensitivity handled by the caller) or a decimal literal. -/
def parseUnsignedFloat (cs : List Char) (neg : Bool) : Option PyFloat :=
  if cs = ['i', 'n', 'f'] ∨ cs = ['i', 'n', 'f', 'i', 'n', 'i', 't', 'y'] then
    some (if neg then .ninf else .inf)
  else if cs = ['n', 'a', 'n'] then
    some .nan
  else
    match parseDecimal cs with
    | some q => some (.fin (if neg then -q else q))
    | none => none

/-- Python `float(s)`: strip, optional sign, then `inf`/`infinity`/`nan`
(case-insensitive) or a decimal literal.  Finite values are exact
rationals (no binary rounding, no overflow to infinity). -/
def pyParseFloat (s : String) : Option PyFloat :=
  match (pyStrip s).toList.map Char.toLower with
  | '+' :: rest => parseUnsignedFloat rest false
  | '-' :: rest => parseUnsignedFloat rest true
  | rest => parseUnsignedFloat rest false

/-! ## Normalizer (src/workflow/normalize.py) -/

/-- `_parse_date` from normalize.py: `strptime(s, "%Y-%m-%d").date()` —
exactly four year digits, one or two month digits in 1..12, one or two
day digits valid for that month/year; nothing else. -/
def isLeap (y : ℕ) : Bool := y % 4 = 0 && (y % 100 ≠ 0 || y % 400 = 0)

/-- Days in a month, Gregorian, as validated by `datetime.date`. -/
def daysInMonth (y m : ℕ) : ℕ :=
  if m = 2 then (if isLeap y then 29 else 28)
  else if m = 4 ∨ m = 6 ∨ m = 9 ∨ m = 11 then 30
  else 31

/-- The error message raised by `_parse_date`. -/
def dateErrMsg (s : String) : String :=
  "Invalid fecha_solicitud format (expected YYYY-MM-DD): \x27" ++ s ++ "\x27"

/-- `_parse_date` from normalize.py. -/
def parse_date (s : String) : Except String PyDate :=
  let s2 := pyStrip s
  match splitOnChar '-' s2.toList with
  | [ys, ms, ds] =>
    let yOk := ys.length = 4 && ys.all Char.isDigit
    let mOk := (ms.length = 1 ∨ ms.length = 2) && ms.all Char.isDigit
    let dOk := (ds.length = 1 ∨ ds.length = 2) && ds.all Char.isDigit
    if yOk && mOk && dOk then
      let y := digitsVal ys
      let m := digitsVal ms
      let d := digitsVal ds
      if 1 ≤ y ∧ 1 ≤ m ∧ m ≤ 12 ∧ 1 ≤ d ∧ d ≤ daysInMonth y m then
        .ok ⟨y, m, d⟩
      else .error (dateErrMsg s)
    else .error (dateErrMsg s)
  | _ => .error (dateErrMsg s)

/-- `_parse_amount` from normalize.py: strip, fail on empty, else Python
`float()`; any parse failure becomes a record-scoped error. -/
def parse_amount (s : String) : Except String PyFloat :=
  let s2 := pyStrip s
  if s2 = "" then .error "monto_o_limite is empty"
  else
    match pyParseFloat s2 with
    | some v => .ok v
    | none => .error ("monto_o_limite is not numeric: \x27" ++ s ++ "\x27")

/-- `_parse_bool` from normalize.py. -/
def parse_bool (s : String) : Except String Bool :=
  let s2 := pyLower (pyStrip s)
  if s2 = "true" ∨ s2 = "1" ∨ s2 = "yes" ∨ s2 = "y" then .ok true
  else if s2 = "false" ∨ s2 = "0" ∨ s2 = "no" ∨ s2 = "n" then .ok false
  else .error ("is_vip is not a boolean: \x27" ++ s ++ "\x27")

/-- `_parse_int` from normalize.py. -/
def parse_int (s : String) : Except String ℤ :=
  let s2 := pyStrip s
  if s2 = "" then .error "risk_score is empty"
  else
    match pyParseInt s2 with
    | some n => .ok n
    | none => .error ("risk_score is not an int: \x27" ++ s ++ "\x27")

/-- `normalize` from normalize.py: trims/cases the string fields and
parses the typed ones, failing with the first record-scoped error in
field evaluation order (date, amount, vip flag, risk score). -/
def normalize (raw : RawRequest) : Except String NormalizedRequest := do
  let tipo := pyLower (pyStrip raw.tipo_producto)
  let moneda := pyUpper (pyStrip raw.moneda)
  let pais := pyUpper (pyStrip raw.pais)
  let fecha ← parse_date raw.fecha_solicitud
  let monto ← parse_amount raw.monto_o_limite
  let vip ← parse_bool raw.is_vip
  let score ← parse_int raw.risk_score
  return { id_solicitud := pyStrip raw.id_solicitud
           fecha_solicitud := fecha
           tipo_producto := tipo
           id_cliente := pyStrip raw.id_cliente
           monto_o_limite := monto
           moneda := moneda
           pais := pais
           is_vip := vip
           risk_score := score
           risk_bucket := risk_bucket score }

/-! ## Baseline rules (src/workflow/rules.py) -/

/-- Decimal digits of the fractional part of a rational, most
significant first. -/
def fracDigits : ℚ → ℕ → List ℕ
  | _, 0 => []
  | x, k + 1 =>
    let y := x * 10
    let d : ℤ := ⌊y⌋
    d.toNat :: fracDigits (y - d) k

/-- Decimal rendering of a rational, in the style of Python `str` on a
float (always at least one fractional digit). -/
def ratRepr (q : ℚ) : String :=
  let sgn := if q < 0 then "-" else ""
  let a : ℚ := |q|
  let ipart : ℕ := (⌊a⌋).toNat
  let ds := fracDigits (a - ⌊a⌋) 17
  let dsTrimmed := (ds.reverse.dropWhile (fun d => d = 0)).reverse
  let frac :=
    if dsTrimmed.isEmpty then "0"
    else String.join (dsTrimmed.map (fun d => toString d))
  sgn ++ toString ipart ++ "." ++ frac

/-- Python `str`/`repr` of a float value. -/
def pyFloatRepr : PyFloat → String
  | .fin q => ratRepr q
  | .inf => "inf"
  | .ninf => "-inf"
  | .nan => "nan"

/-- Python `repr` of a list of strings, as interpolated into the
currency rule reason. -/
def listReprStr (l : List String) : String :=
  "[" ++ String.intercalate ", " (l.map (fun s => "\x27" ++ s ++ "\x27")) ++ "]"

/-- `RequiredFieldsRule` from rules.py. -/
def RequiredFieldsRule : Rule where
  rule_id := "REQUIRED_FIELDS"
  severity := .HIGH
  check r :=
    if r.id_solicitud = "" then some "id_solicitud is empty"
    else if r.id_cliente = "" then some "id_cliente is empty"
    else if r.tipo_producto = "" then some "tipo_producto is empty"
    else if r.moneda = "" then some "moneda is empty"
    else if r.pais = "" then some "pais is empty"
    else none

/-- `CurrencyAllowedRule` from rules.py (default allow-list
`("ARS", "USD", "EUR")`). -/
def CurrencyAllowedRule (allowed : List String := ["ARS", "USD", "EUR"]) : Rule where
  rule_id := "CURRENCY_ALLOWED"
  severity := .MEDIUM
  check r :=
    if !(allowed.contains r.moneda) then
      some ("moneda \x27" ++ r.moneda ++ "\x27 not in allowed list " ++ listReprStr allowed)
    else none

/-- `AmountRangeRule` from rules.py (default range `[1.0, 1000000.0]`);
the two comparisons use Python float ordering, under which NaN compares
false to everything. -/
def AmountRangeRule (min_value : PyFloat := .fin 1) (max_value : PyFloat := .fin 1000000) :
    Rule where
  rule_id := "AMOUNT_RANGE"
  severity := .MEDIUM
  check r :=
    if pyLt r.monto_o_limite min_value || pyGt r.monto_o_limite max_value then
      some ("monto_o_limite " ++ pyFloatRepr r.monto_o_limite ++ " out of range ["
        ++ pyFloatRepr min_value ++ ", " ++ pyFloatRepr max_value ++ "]")
    else none

/-- The rule list built in run.py:
`[RequiredFieldsRule(), CurrencyAllowedRule(), AmountRangeRule()]`. -/
def defaultRules : List Rule :=
  [RequiredFieldsRule, CurrencyAllowedRule, AmountRangeRule]

/-! ## Quality gate (src/workflow/quality.py) -/

/-- `_safe_rate` from quality.py: `0.0 if denom <= 0 else numer / denom`,
over exact rationals. -/
def safe_rate (numer denom : ℤ) : ℚ :=
  if denom ≤ 0 then 0 else (numer : ℚ) / (denom : ℚ)

/-- Round-half-even to an integer (the tie-breaking used by Python
`round`). -/
def roundHalfEven (y : ℚ) : ℤ :=
  let n := ⌊y⌋
  let f := y - n
  if f < 1 / 2 then n
  else if 1 / 2 < f then n + 1
  else if n % 2 = 0 then n else n + 1

/-- `_round4` from quality.py: Python `round(x, 4)`. -/
def round4 (x : ℚ) : ℚ := (roundHalfEven (x * 10000) : ℚ) / 10000

/-- Python `f"{x:.4f}"`: fixed-point rendering with exactly four
fractional digits. -/
def fmt4 (x : ℚ) : String :=
  let y := roundHalfEven (x * 10000)
  let sgn := if y < 0 then "-" else ""
  let a := y.natAbs
  let frs := toString (a % 10000)
  let pad := String.mk (List.replicate (4 - frs.length) '0')
  sgn ++ toString (a / 10000) ++ "." ++ pad ++ frs

/-- `QualityGatePolicy` from quality.py, with its default thresholds. -/
structure QualityGatePolicy where
  policy_id : String := "quality_gate.v1"
  max_rejection_rate : ℚ := 2 / 5  -- 0.40 in the source
  min_acceptance_rate : ℚ := 1 / 10  -- 0.10 in the source
deriving DecidableEq, Repr

/-- `QualityGateDecision` from quality.py; the metrics snapshot dict is
embedded as an ordered key/value list. -/
structure QualityGateDecision where
  decision : String
  rationale : String
  policy_id : String
  metrics_snapshot : List (String × ℚ)
deriving DecidableEq, Repr

/-- `evaluate_quality_gate` from quality.py: rule 1 (excess rejection),
then rule 2 (insufficient acceptance), else PASS. -/
def evaluate_quality_gate (acceptance_rate rejection_rate : ℚ)
    (policy : QualityGatePolicy) : QualityGateDecision :=
  if rejection_rate > policy.max_rejection_rate then
    { decision := "WARN"
      rationale := "Rejection rate above threshold: " ++ fmt4 rejection_rate
        ++ " > " ++ fmt4 policy.max_rejection_rate
      policy_id := policy.policy_id
      metrics_snapshot :=
        [("acceptance_rate", round4 acceptance_rate),
         ("rejection_rate", round4 rejection_rate)] }
  else if acceptance_rate < policy.min_acceptance_rate then
    { decision := "WARN"
      rationale := "Acceptance rate below minimum: " ++ fmt4 acceptance_rate
        ++ " < " ++ fmt4 policy.min_acceptance_rate
      policy_id := policy.policy_id
      metrics_snapshot :=
        [("acceptance_rate", round4 acceptance_rate),
         ("rejection_rate", round4 rejection_rate)] }
  else
    { decision := "PASS"
      rationale := "Quality gate passed"
      policy_id := policy.policy_id
      metrics_snapshot :=
        [("acceptance_rate", round4 acceptance_rate),
         ("rejection_rate", round4 rejection_rate)] }

/-- The default policy instance `QualityGatePolicy()` built in run.py. -/
def defaultPolicy : QualityGatePolicy := {}

/-! ## Per-record processing loop (src/workflow/run.py, `main`) -/

/-- `WorkflowStats` from models.py. -/
structure WorkflowStats where
  total : ℕ
  valid : ℕ
  invalid : ℕ
deriving DecidableEq, Repr

/-- The mutable state of the processing loop in run.py: the two
counters plus the accumulated output rows (rejected rows abstracted to
`(id_solicitud, reject_rule_ids, reject_reasons)`). -/
structure ProcessState where
  valid : ℕ
  invalid : ℕ
  clean_out : List NormalizedRequest
  rejected_out : List (String × String × String)
deriving Repr

/-- One iteration of the per-record loop in run.py `main`: normalize,
then validate; a normalization error or a REJECT decision increments
`invalid`, an ACCEPT increments `valid`. -/
def processRecord (rules : List Rule) (st : ProcessState) (raw : RawRequest) : ProcessState :=
  let record_id := pyStrip raw.id_solicitud
  match normalize raw with
  | .error exc =>
    { st with
      invalid := st.invalid + 1
      rejected_out := st.rejected_out ++ [(record_id, "NORMALIZATION_ERROR", exc)] }
  | .ok normalized =>
    let result := validate normalized rules
    if result.decision = Decision.ACCEPT then
      { st with
        valid := st.valid + 1
        clean_out := st.clean_out ++ [normalized] }
    else
      let rule_ids := String.intercalate "|" (result.failures.map (fun f => f.rule_id))
      let reasons := String.intercalate " | " (result.failures.map (fun f => f.reason))
      { st with
        invalid := st.invalid + 1
        rejected_out := st.rejected_out ++ [(normalized.id_solicitud, rule_ids, reasons)] }

/-- The whole per-record loop of run.py over the rows returned by the
Reader. -/
def processAll (rules : List Rule) (raws : List RawRequest) : ProcessState :=
  raws.foldl (processRecord rules) ⟨0, 0, [], []⟩

/-- `manifest["counts"]` in run.py:
`{"total": len(raw_rows), "valid": valid, "invalid": invalid}`. -/
def runCounts (rules : List Rule) (raws : List RawRequest) : WorkflowStats :=
  ⟨raws.length, (processAll rules raws).valid, (processAll rules raws).invalid⟩

/-- The rates computed in run.py `main`:
`0.0 if total_records <= 0 else valid / total_records` (and likewise for
`invalid`), which coincides with `_safe_rate`. -/
def runAcceptanceRate (rules : List Rule) (raws : List RawRequest) : ℚ :=
  safe_rate ((runCounts rules raws).valid : ℤ) ((runCounts rules raws).total : ℤ)

/-- `rejection_rate` as computed in run.py `main`. -/
def runRejectionRate (rules : List Rule) (raws : List RawRequest) : ℚ :=
  safe_rate ((runCounts rules raws).invalid : ℤ) ((runCounts rules raws).total : ℤ)

/-! ## Reader (src/workflow/io.py) -/

/-- A parsed JSON value (the output of `json.loads`, whose textual
parsing is out of scope per the spec). -/
inductive JVal
  | null
  | bool (b : Bool)
  | num (q : ℚ)
  | str (s : String)
  | arr (elems : List JVal)
  | obj (fields : List (String × JVal))

/-- Python `repr` of a JSON-shaped value (quote-escaping inside strings
not modelled; the readers only exercise the scalar cases). -/
def pyRepr : JVal → String
  | .null => "None"
  | .bool b => if b then "True" else "False"
  | .num q => ratRepr q
  | .str s => "\x27" ++ s ++ "\x27"
  | .arr es => "[" ++ String.intercalate ", " (es.attach.map (fun e => pyRepr e.1)) ++ "]"
  | .obj fs =>
    "\x7b" ++ String.intercalate ", "
      (fs.attach.map (fun f => "\x27" ++ f.1.1 ++ "\x27: " ++ pyRepr f.1.2)) ++ "\x7d"
decreasing_by
  · simp only [JVal.arr.sizeOf_spec]
    have h := List.sizeOf_lt_of_mem e.2
    omega
  · simp only [JVal.obj.sizeOf_spec]
    have h := List.sizeOf_lt_of_mem f.2
    have h2 : sizeOf f.1.2 < sizeOf f.1 := by
      obtain ⟨⟨a, b⟩, hf⟩ := f
      simp
    omega

/-- Python `str` of a JSON-shaped value (as called in
`_build_raw_request`): identity on strings, `repr` otherwise. -/
def pyStr : JVal → String
  | .str s => s
  | v => pyRepr v

/-- Python dict `.get` on an association list built left to right
(later duplicate keys overwrite earlier ones, as in `dict`). -/
def jget (fields : List (String × JVal)) (k : String) : Option JVal :=
  fields.foldl (fun acc p => if p.1 = k then some p.2 else acc) none

/-- `REQUIRED_COLUMNS` from io.py. -/
def REQUIRED_COLUMNS : List String :=
  ["id_solicitud", "fecha_solicitud", "tipo_producto", "id_cliente",
   "monto_o_limite", "moneda", "pais", "is_vip", "risk_score"]

/-- The list `[c for c in REQUIRED_COLUMNS if c not in colset]` from
`_assert_required_columns`. -/
def missingColumns (cols : List String) : List String :=
  REQUIRED_COLUMNS.filter (fun c => !(cols.contains c))

/-- `_assert_required_columns` from io.py. -/
def assert_required_columns (cols : List String) : Except String Unit :=
  let missing := missingColumns cols
  if missing.isEmpty then .ok ()
  else .error ("Input missing required columns: " ++ listReprStr missing)

/-- The field accessor `g` inside `_build_raw_request`:
`"" if row.get(k) is None else str(row.get(k))` (an absent key and a JSON
null both give the empty string). -/
def g_field (row : List (String × JVal)) (k : String) : String :=
  match jget row k with
  | none => ""
  | some .null => ""
  | some v => pyStr v

/-- `_build_raw_request` from io.py. -/
def build_raw_request (row : List (String × JVal)) : RawRequest :=
  { id_solicitud := g_field row "id_solicitud"
    fecha_solicitud := g_field row "fecha_solicitud"
    tipo_producto := g_field row "tipo_producto"
    id_cliente := g_field row "id_cliente"
    monto_o_limite := g_field row "monto_o_limite"
    moneda := g_field row "moneda"
    pais := g_field row "pais"
    is_vip := g_field row "is_vip"
    risk_score := g_field row "risk_score" }

/-- The record loop of `read_json` (`for i, item in enumerate(records)`). -/
def read_json_items (i : ℕ) : List JVal → Except String (List RawRequest)
  | [] => .ok []
  | item :: rest =>
    match item with
    | .obj fields =>
      (match assert_required_columns (fields.map Prod.fst) with
       | .error e => .error e
       | .ok _ =>
         match read_json_items (i + 1) rest with
         | .error e => .error e
         | .ok rs => .ok (build_raw_request fields :: rs))
    | _ => .error ("JSON record at index " ++ toString i ++ " is not an object")

/-- `read_json` from io.py, over the already-parsed payload: a direct
list, or an object carrying a `requests` list. -/
def read_json (payload : JVal) : Except String (List RawRequest) :=
  let records : JVal :=
    match payload with
    | .obj fields =>
      if (fields.map Prod.fst).contains "requests" then (jget fields "requests").getD .null
      else .obj fields
    | other => other
  match records with
  | .arr items => read_json_items 0 items
  | _ => .error "JSON root must be a list or object with \x27requests\x27 list"

/-- Projection of a `RawRequest` field by column name. -/
def rawField (r : RawRequest) (c : String) : String :=
  if c = "id_solicitud" then r.id_solicitud
  else if c = "fecha_solicitud" then r.fecha_solicitud
  else if c = "tipo_producto" then r.tipo_producto
  else if c = "id_cliente" then r.id_cliente
  else if c = "monto_o_limite" then r.monto_o_limite
  else if c = "moneda" then r.moneda
  else if c = "pais" then r.pais
  else if c = "is_vip" then r.is_vip
  else if c = "risk_score" then r.risk_score
  else ""

/-! ## Delimited readers (src/workflow/io.py) -/

/-- One line split into `csv` fields (normal mode): `delim` separates
fields; a quote opening at field start enters quoted mode. -/
def csvNormal (delim : Char) (cur : List Char) : List Char → List String
  | [] => [String.mk cur.reverse]
  | c :: rest =>
    if c = delim then String.mk cur.reverse :: csvNormal delim [] rest
    else if c = '"' && cur.isEmpty then csvQuoted delim cur rest
    else csvNormal delim (c :: cur) rest
where
  /-- Quoted mode: a doubled quote is a literal quote; a single quote
  closes the quoted section. -/
  csvQuoted (delim : Char) (cur : List Char) : List Char → List String
  | [] => [String.mk cur.reverse]
  | '"' :: '"' :: rest => csvQuoted delim ('"' :: cur) rest
  | '"' :: rest => csvNormal delim cur rest
  | c :: rest => csvQuoted delim (c :: cur) rest

/-- A physical line as a `csv.reader` row: the empty line is the empty
row (which `DictReader` skips), any other line is split into fields. -/
def csvRowOfLine (delim : Char) (line : String) : List String :=
  if line = "" then [] else csvNormal delim [] line.toList

/-- The `DictReader`-driven body shared by `read_csv` and
`read_txt_delimited`: fieldnames from the header line, required-column
check, then one `RawRequest` per non-empty data row (`zip` drops extra
values; missing values behave as the `None` restval, i.e. empty string). -/
def dict_reader_rows (delim : Char) (header : String) (rest : List String) :
    Except String (List RawRequest) :=
  let fieldnames := csvRowOfLine delim header
  match assert_required_columns fieldnames with
  | .error e => .error e
  | .ok _ =>
    .ok (((rest.map (csvRowOfLine delim)).filter (fun row => !row.isEmpty)).map
      (fun row => build_raw_request (fieldnames.zip (row.map (fun v => JVal.str v)))))

/-- `read_csv` from io.py, over the file's physical lines. -/
def read_csv (lines : List String) : Except String (List RawRequest) :=
  match lines with
  | [] => .error "CSV has no header row"
  | header :: rest => dict_reader_rows ',' header rest

/-- `_detect_delimiter` from io.py. -/
def detect_delimiter (header_line : String) : Option Char :=
  if header_line.toList.contains '|' then some '|'
  else if header_line.toList.contains '\t' then some '\t'
  else if header_line.toList.contains ';' then some ';'
  else if header_line.toList.contains ',' then some ','
  else none

/-- `read_txt_delimited` from io.py, over the file's physical lines. -/
def read_txt_delimited (lines : List String) : Except String (List RawRequest) :=
  match lines.filter (fun ln => pyStrip ln ≠ "") with
  | [] => .error "TXT input is empty"
  | first :: _ =>
    match detect_delimiter first with
    | none =>
      .error "TXT format not recognized as delimited text; use --format cobol for fixed-width files"
    | some d =>
      match lines with
      | [] => .error "TXT has no header row"
      | header :: rest => dict_reader_rows d header rest

/-! ## Fixed-width reader (src/workflow/io.py) -/

/-- `FixedWidthField` from io.py (`end` renamed `stop`: Lean keyword). -/
structure FixedWidthField where
  name : String
  start : ℕ
  stop : ℕ
deriving DecidableEq, Repr

/-- `DEFAULT_COBOL_LAYOUT` from io.py. -/
def DEFAULT_COBOL_LAYOUT : List FixedWidthField :=
  [⟨"id_solicitud", 0, 12⟩, ⟨"fecha_solicitud", 12, 22⟩, ⟨"tipo_producto", 22, 34⟩,
   ⟨"id_cliente", 34, 46⟩, ⟨"monto_o_limite", 46, 58⟩, ⟨"moneda", 58, 61⟩,
   ⟨"pais", 61, 63⟩, ⟨"is_vip", 63, 68⟩, ⟨"risk_score", 68, 71⟩]

/-- Python slice `line[a:b]` (out-of-range indices are clamped). -/
def pySlice (s : String) (a b : ℕ) : String :=
  String.mk ((s.toList.drop a).take (b - a))

/-- The line loop of `read_cobol_fixed_width`: skip blank lines, slice
each line by the layout, check the required columns, build the row. -/
def read_cobol_rows (layout : List FixedWidthField) (line_no : ℕ) :
    List String → Except String (List RawRequest)
  | [] => .ok []
  | line :: rest =>
    if pyStrip line = "" then read_cobol_rows layout (line_no + 1) rest
    else
      let row := layout.map (fun f => (f.name, JVal.str (pyStrip (pySlice line f.start f.stop))))
      match assert_required_columns (row.map Prod.fst) with
      | .error exc =>
        .error ("Fixed-width layout mismatch at line " ++ toString line_no ++ ": " ++ exc)
      | .ok _ =>
        match read_cobol_rows layout (line_no + 1) rest with
        | .error e => .error e
        | .ok rs => .ok (build_raw_request row :: rs)

/-- `read_cobol_fixed_width` from io.py: the loop above, then the
zero-data-rows check. -/
def read_cobol_fixed_width (lines : List String)
    (layout : List FixedWidthField := DEFAULT_COBOL_LAYOUT) :
    Except String (List RawRequest) :=
  match read_cobol_rows layout 1 lines with
  | .error e => .error e
  | .ok rows =>
    if rows.isEmpty then .error "Fixed-width input has no data rows"
    else .ok rows

/-! ## Auxiliary definitions for the statements below -/

/-- Whether an `Except`-returning parser succeeded. -/
def isOkB : Except String PyFloat → Bool
  | .ok _ => true
  | .error _ => false

/-- Modelled from the spec sentence "Amount must parse as a finite
numeric value": the string parses as a Python float AND the value is
finite (not `inf`, `-inf` or `nan`). -/
def denotesFiniteNumber (s : String) : Bool :=
  match pyParseFloat s with
  | some (.fin _) => true
  | _ => false

/-- A well-formed raw record (the first record of the spec's two-record
scenario). -/
def sampleRaw : RawRequest :=
  ⟨"REQ-5001", "2026-02-10", "cuenta", "CLI-9001", "1000", "ARS", "AR", "false", "15"⟩

/-- A raw record whose amount string is `"nan"`. -/
def nanRaw : RawRequest :=
  ⟨"REQ-9001", "2026-02-10", "cuenta", "CLI-9001", "nan", "ARS", "AR", "false", "15"⟩

/-- The normalized form of `nanRaw`. -/
def nanNormalized : NormalizedRequest :=
  { id_solicitud := "REQ-9001"
    fecha_solicitud := ⟨2026, 2, 10⟩
    tipo_producto := "cuenta"
    id_cliente := "CLI-9001"
    monto_o_limite := .nan
    moneda := "ARS"
    pais := "AR"
    is_vip := false
    risk_score := 15
    risk_bucket := "LOW" }

/-- A one-object JSON payload with all nine required fields, `is_vip`
null. -/
def sampleObjs : List (List (String × JVal)) :=
  [[("id_solicitud", .str "REQ-5001"), ("fecha_solicitud", .str "2026-02-10"),
    ("tipo_producto", .str "cuenta"), ("id_cliente", .str "CLI-9001"),
    ("monto_o_limite", .str "1000"), ("moneda", .str "ARS"), ("pais", .str "AR"),
    ("is_vip", .null), ("risk_score", .str "15")]]

/-- A header line carrying all nine required columns, comma-separated. -/
def csvHeader : String :=
  "id_solicitud,fecha_solicitud,tipo_producto,id_cliente,monto_o_limite,moneda,pais,is_vip,risk_score"

/-! ## Theorems: rule engine -/

/-- The failure-collecting fold of `validate` equals a `filterMap` over
the rule list, for any accumulator. -/
theorem foldl_collect (r : NormalizedRequest) :
    ∀ (rules : List Rule) (acc : List RuleFailure),
      rules.foldl
        (fun acc rule =>
          match rule.check r with
          | some reason => acc ++ [⟨rule.rule_id, rule.severity, reason⟩]
          | none => acc)
        acc
      = acc ++ rules.filterMap (fun rule =>
          (rule.check r).map (fun reason => ⟨rule.rule_id, rule.severity, reason⟩))
  | [], acc => by simp
  | rule :: rest, acc => by
    simp only [List.foldl_cons, List.filterMap_cons]
    cases h : rule.check r with
    | none => simp [foldl_collect r rest acc]
    | some reason => simp [foldl_collect r rest (acc ++ [⟨rule.rule_id, rule.severity, reason⟩])]

/-- C1: `validate(r, R)` evaluates every rule of `R` in list order with no
short-circuit, collecting exactly the non-none reasons as `RuleFailure`s
in rule order (a `filterMap` over the full rule list), and its decision is
ACCEPT iff the collected failure list is empty (REJECT otherwise, carrying
the full ordered failure list). -/
theorem validate_runs_all_rules_in_order (r : NormalizedRequest) (rules : List Rule) :
    (validate r rules).failures
      = rules.filterMap (fun rule =>
          (rule.check r).map (fun reason =>
            (⟨rule.rule_id, rule.severity, reason⟩ : RuleFailure)))
    ∧ ((validate r rules).decision = Decision.ACCEPT
        ↔ (validate r rules).failures = []) := by
  have h := foldl_collect r rules []
  rw [List.nil_append] at h
  unfold validate
  simp only [h]
  cases hE : rules.filterMap (fun rule =>
      (rule.check r).map (fun reason =>
        (⟨rule.rule_id, rule.severity, reason⟩ : RuleFailure))) with
  | nil => simp
  | cons a t => simp

/-! ## Theorems: risk bucket -/

/-- C7: the derived risk bucket is LOW exactly when `score < 34`, MED
exactly when `34 ≤ score < 67`, HIGH exactly when `score ≥ 67`. -/
theorem risk_bucket_thresholds (score : ℤ) :
    (risk_bucket score = "LOW" ↔ score < 34)
    ∧ (risk_bucket score = "MED" ↔ 34 ≤ score ∧ score < 67)
    ∧ (risk_bucket score = "HIGH" ↔ 67 ≤ score) := by
  unfold risk_bucket
  by_cases h1 : score < 34 <;> by_cases h2 : score < 67 <;>
    simp [h1, h2] <;> omega

/-! ## Theorems: processing-loop totals -/

/-- One loop iteration increments exactly one of the two counters. -/
theorem processRecord_counts (rules : List Rule) (st : ProcessState) (raw : RawRequest) :
    (processRecord rules st raw).valid + (processRecord rules st raw).invalid
      = st.valid + st.invalid + 1 := by
  unfold processRecord
  cases normalize raw with
  | error e => simp; omega
  | ok n =>
    by_cases h : (validate n rules).decision = Decision.ACCEPT <;> simp [h] <;> omega

/-- Folding the loop adds the record count to the counter sum. -/
theorem processAll_counts_aux (rules : List Rule) :
    ∀ (raws : List RawRequest) (st : ProcessState),
      (raws.foldl (processRecord rules) st).valid
          + (raws.foldl (processRecord rules) st).invalid
        = st.valid + st.invalid + raws.length
  | [], st => by simp
  | raw :: rest, st => by
    simp only [List.foldl_cons, List.length_cons]
    rw [processAll_counts_aux rules rest (processRecord rules st raw),
      processRecord_counts]
    omega

/-- C2: after the per-record loop, `valid + invalid = total` and `total`
equals the number of raw records returned by the Reader; moreover each
record increments exactly one of the two counters. -/
theorem totals_invariant (rules : List Rule) (raws : List RawRequest) :
    (runCounts rules raws).valid + (runCounts rules raws).invalid
        = (runCounts rules raws).total
    ∧ (runCounts rules raws).total = raws.length
    ∧ ∀ (st : ProcessState) (raw : RawRequest),
        (processRecord rules st raw).valid + (processRecord rules st raw).invalid
          = st.valid + st.invalid + 1 := by
  refine ⟨?_, rfl, fun st raw => processRecord_counts rules st raw⟩
  have h := processAll_counts_aux rules raws ⟨0, 0, [], []⟩
  simpa [runCounts, processAll] using h

/-! ## Theorems: rates -/

/-- `_safe_rate` bounds, given the loop invariant `v + i = t`. -/
theorem safe_rate_bounds (v i t : ℕ) (hsum : v + i = t) :
    0 ≤ safe_rate (v : ℤ) (t : ℤ) ∧ safe_rate (v : ℤ) (t : ℤ) ≤ 1
    ∧ 0 ≤ safe_rate (i : ℤ) (t : ℤ) ∧ safe_rate (i : ℤ) (t : ℤ) ≤ 1
    ∧ (0 < t → safe_rate (v : ℤ) (t : ℤ) + safe_rate (i : ℤ) (t : ℤ) = 1)
    ∧ (t = 0 → safe_rate (v : ℤ) (t : ℤ) = 0 ∧ safe_rate (i : ℤ) (t : ℤ) = 0) := by
  unfold safe_rate
  rcases Nat.eq_zero_or_pos t with h0 | hpos
  · subst h0; norm_num
  · have hcond : ¬ ((t : ℤ) ≤ 0) := by exact_mod_cast Nat.not_le.mpr hpos
    have htQ : (0 : ℚ) < ((t : ℤ) : ℚ) := by exact_mod_cast hpos
    have hvle : ((v : ℤ) : ℚ) ≤ ((t : ℤ) : ℚ) := by
      have : v ≤ t := by omega
      exact_mod_cast this
    have hile : ((i : ℤ) : ℚ) ≤ ((t : ℤ) : ℚ) := by
      have : i ≤ t := by omega
      exact_mod_cast this
    have hvnn : (0 : ℚ) ≤ ((v : ℤ) : ℚ) := by positivity
    have hinn : (0 : ℚ) ≤ ((i : ℤ) : ℚ) := by positivity
    simp only [hcond, if_false]
    refine ⟨div_nonneg hvnn htQ.le, (div_le_one htQ).mpr hvle,
      div_nonneg hinn htQ.le, (div_le_one htQ).mpr hile, fun _ => ?_, fun h0 => by omega⟩
    rw [div_add_div_same, div_eq_one_iff_eq htQ.ne.symm]
    push_cast
    exact_mod_cast congrArg (fun n : ℕ => (n : ℚ)) hsum

/-- C4: `acceptance_rate` and `rejection_rate` as computed in run.py are
always in `[0, 1]`; they sum to `1` when `total > 0`; both are `0` when
`total = 0` (no division-by-zero fault: `_safe_rate` returns `0` for a
non-positive denominator). -/
theorem rate_bounds (rules : List Rule) (raws : List RawRequest) :
    0 ≤ runAcceptanceRate rules raws ∧ runAcceptanceRate rules raws ≤ 1
    ∧ 0 ≤ runRejectionRate rules raws ∧ runRejectionRate rules raws ≤ 1
    ∧ (0 < (runCounts rules raws).total →
        runAcceptanceRate rules raws + runRejectionRate rules raws = 1)
    ∧ ((runCounts rules raws).total = 0 →
        runAcceptanceRate rules raws = 0 ∧ runRejectionRate rules raws = 0) := by
  have hsum : (runCounts rules raws).valid + (runCounts rules raws).invalid
      = (runCounts rules raws).total := by
    simpa [runCounts, processAll] using processAll_counts_aux rules raws ⟨0, 0, [], []⟩
  exact safe_rate_bounds _ _ _ hsum

/-! ## Theorems: quality gate -/

/-- String append is associative. -/
theorem str_append_assoc (a b c : String) : a ++ b ++ c = a ++ (b ++ c) := by
  rcases a with ⟨la⟩; rcases b with ⟨lb⟩; rcases c with ⟨lc⟩
  show String.mk (la ++ lb ++ lc) = String.mk (la ++ (lb ++ lc))
  rw [List.append_assoc]

/-- The empty string is a right identity for append. -/
theorem str_append_empty (a : String) : a ++ "" = a := by
  rcases a with ⟨la⟩
  show String.mk (la ++ []) = String.mk la
  rw [List.append_nil]

/-- `s` occurs (as a contiguous substring) in `x ++ s ++ y`. -/
def citesValue (rationale value : String) : Prop :=
  ∃ x y, rationale = x ++ value ++ y

/-- C3: the quality gate applies its rules first-match-wins — excess
rejection rate gives WARN with a rationale citing both values, else
insufficient acceptance rate gives WARN citing both values, else PASS —
and every decision embeds the policy id and a metrics snapshot with both
(rounded) rates. -/
theorem quality_gate_first_match (a r : ℚ) (p : QualityGatePolicy) :
    (evaluate_quality_gate a r p).policy_id = p.policy_id
    ∧ (evaluate_quality_gate a r p).metrics_snapshot
        = [("acceptance_rate", round4 a), ("rejection_rate", round4 r)]
    ∧ (r > p.max_rejection_rate →
        (evaluate_quality_gate a r p).decision = "WARN"
        ∧ citesValue (evaluate_quality_gate a r p).rationale (fmt4 r)
        ∧ citesValue (evaluate_quality_gate a r p).rationale (fmt4 p.max_rejection_rate))
    ∧ (¬ r > p.max_rejection_rate → a < p.min_acceptance_rate →
        (evaluate_quality_gate a r p).decision = "WARN"
        ∧ citesValue (evaluate_quality_gate a r p).rationale (fmt4 a)
        ∧ citesValue (evaluate_quality_gate a r p).rationale (fmt4 p.min_acceptance_rate))
    ∧ (¬ r > p.max_rejection_rate → ¬ a < p.min_acceptance_rate →
        (evaluate_quality_gate a r p).decision = "PASS") := by
  unfold evaluate_quality_gate
  by_cases h1 : r > p.max_rejection_rate
  · rw [if_pos h1]
    refine ⟨rfl, rfl, fun _ => ⟨rfl, ?_, ?_⟩, fun h _ => absurd h1 h, fun h _ => absurd h1 h⟩
    · exact ⟨"Rejection rate above threshold: ", " > " ++ fmt4 p.max_rejection_rate,
        by rw [str_append_assoc]⟩
    · exact ⟨"Rejection rate above threshold: " ++ fmt4 r ++ " > ", "",
        by rw [str_append_empty]⟩
  · rw [if_neg h1]
    by_cases h2 : a < p.min_acceptance_rate
    · rw [if_pos h2]
      refine ⟨rfl, rfl, fun h => absurd h h1, fun _ _ => ⟨rfl, ?_, ?_⟩,
        fun _ h => absurd h2 h⟩
      · exact ⟨"Acceptance rate below minimum: ", " < " ++ fmt4 p.min_acceptance_rate,
          by rw [str_append_assoc]⟩
      · exact ⟨"Acceptance rate below minimum: " ++ fmt4 a ++ " < ", "",
          by rw [str_append_empty]⟩
    · rw [if_neg h2]
      exact ⟨rfl, rfl, fun h => absurd h h1, fun _ h => absurd h h2, fun _ _ => rfl⟩

/-- Witness for C3: with the default policy, rates `(1, 0)` take the PASS
branch and rates `(0, 1)` take the excess-rejection WARN branch. -/
theorem quality_gate_first_match_witness :
    (evaluate_quality_gate 1 0 defaultPolicy).decision = "PASS"
    ∧ (evaluate_quality_gate 0 1 defaultPolicy).decision = "WARN" :=
  ⟨(quality_gate_first_match 1 0 defaultPolicy).2.2.2.2
      (by norm_num [defaultPolicy]) (by norm_num [defaultPolicy]),
   ((quality_gate_first_match 0 1 defaultPolicy).2.2.1
      (by norm_num [defaultPolicy])).1⟩

/-- C5: with `acceptance_rate` held fixed, the gate decision is monotone
in `rejection_rate`: a PASS flips to WARN as soon as the rate passes
`max_rejection_rate`, and increasing the rejection rate never flips a
WARN back to PASS. -/
theorem gate_monotone_in_rejection (p : QualityGatePolicy) (a r1 r2 : ℚ) (h12 : r1 ≤ r2) :
    ((evaluate_quality_gate a r1 p).decision = "PASS" → r2 > p.max_rejection_rate →
        (evaluate_quality_gate a r2 p).decision = "WARN")
    ∧ ((evaluate_quality_gate a r1 p).decision = "WARN" →
        (evaluate_quality_gate a r2 p).decision = "WARN") := by
  unfold evaluate_quality_gate
  by_cases hr1 : r1 > p.max_rejection_rate <;>
    by_cases hr2 : r2 > p.max_rejection_rate <;>
    by_cases ha : a < p.min_acceptance_rate <;>
    simp [hr1, hr2, ha] <;>
    linarith

/-- Witness for C5: with the default policy and acceptance rate `1/2`,
rejection rate `3/10` gives PASS and raising it to `1/2` gives WARN. -/
theorem gate_monotone_in_rejection_witness :
    (evaluate_quality_gate (1/2) (1/2) defaultPolicy).decision = "WARN" :=
  (gate_monotone_in_rejection defaultPolicy (1/2) (3/10) (1/2) (by norm_num)).1
    (by
      unfold evaluate_quality_gate
      rw [if_neg (by norm_num [defaultPolicy]), if_neg (by norm_num [defaultPolicy])])
    (by norm_num [defaultPolicy])

/-- Witness for C4: a one-record run has rates summing to 1; a
zero-record run has both rates equal to 0. -/
theorem rate_bounds_witness :
    runAcceptanceRate defaultRules [sampleRaw] + runRejectionRate defaultRules [sampleRaw] = 1
    ∧ runAcceptanceRate defaultRules [] = 0 ∧ runRejectionRate defaultRules [] = 0 :=
  ⟨(rate_bounds defaultRules [sampleRaw]).2.2.2.2.1 (by decide),
   (rate_bounds defaultRules []).2.2.2.2.2 rfl⟩

/-! ## Theorems: amount parsing (C6) -/

/-- Counterexample to C6 as stated: `_parse_amount` accepts `"nan"`,
whose trimmed form does not denote a finite numeric value (and likewise
`"inf"`). -/
theorem parse_amount_accepts_nonfinite :
    parse_amount "nan" = Except.ok PyFloat.nan
    ∧ denotesFiniteNumber "nan" = false
    ∧ parse_amount "inf" = Except.ok PyFloat.inf
    ∧ denotesFiniteNumber "inf" = false := by
  refine ⟨rfl, rfl, rfl, rfl⟩

/-- C6 (amended): normalization of the amount field succeeds exactly
when the trimmed string is a nonempty valid Python float literal —
finite or not (`inf`/`infinity`/`nan` included); it raises the
record-scoped error when the trimmed string is empty or non-numeric. -/
theorem parse_amount_ok_iff (s : String) :
    isOkB (parse_amount s)
      = (!(decide (pyStrip s = "")) && (pyParseFloat (pyStrip s)).isSome) := by
  by_cases h : pyStrip s = ""
  · simp [parse_amount, isOkB, h]
  · simp only [parse_amount, h, if_false]
    cases hp : pyParseFloat (pyStrip s) <;> simp [hp, isOkB, h]

/-! ## Theorems: NaN passes the amount-range rule (C9) -/

/-- C9: the amount-range rule returns `none` on a NaN amount (both
comparisons are false under Python float ordering), for any bounds; and
the concrete record with raw amount `"nan"` normalizes to a NaN amount
and is ACCEPTed by the full default rule set. -/
theorem amount_range_accepts_nan :
    (∀ (minv maxv : PyFloat) (r : NormalizedRequest), r.monto_o_limite = PyFloat.nan →
        (AmountRangeRule minv maxv).check r = none)
    ∧ normalize nanRaw = Except.ok nanNormalized
    ∧ nanNormalized.monto_o_limite = PyFloat.nan
    ∧ validate nanNormalized defaultRules = ⟨Decision.ACCEPT, []⟩ := by
  refine ⟨?_, by rfl, rfl, by rfl⟩
  intro minv maxv r h
  simp only [AmountRangeRule]
  rw [h]
  cases minv <;> cases maxv <;> rfl

/-- Witness for C9: the amount-range check at the default bounds on the
concrete NaN record. -/
theorem amount_range_accepts_nan_witness :
    (AmountRangeRule (PyFloat.fin 1) (PyFloat.fin 1000000)).check nanNormalized = none :=
  amount_range_accepts_nan.1 (PyFloat.fin 1) (PyFloat.fin 1000000) nanNormalized rfl

/-! ## Theorems: JSON round-trip (C8) -/

/-- The JSON record loop succeeds on a list of objects whose key sets
cover the required columns, building one `RawRequest` per object. -/
theorem read_json_items_ok (objs : List (List (String × JVal))) :
    ∀ i, (∀ fs ∈ objs, missingColumns (fs.map Prod.fst) = []) →
      read_json_items i (objs.map JVal.obj) = .ok (objs.map build_raw_request) := by
  induction objs with
  | nil => intro i _; rfl
  | cons fs rest ih =>
    intro i h
    have hfs : missingColumns (fs.map Prod.fst) = [] := h fs (by simp)
    have hrest := ih (i + 1) (fun g hg => h g (by simp [hg]))
    simp [read_json_items, assert_required_columns, hfs, hrest]

/-- C8: a JSON payload that is a list of objects, each containing all
nine required fields, is read into one `RawRequest` per object; for the
required columns, a JSON string value is carried over literally and a
JSON null (or an absent key) becomes the empty string. -/
theorem read_json_roundtrip (objs : List (List (String × JVal)))
    (hkeys : ∀ fs ∈ objs, ∀ c ∈ REQUIRED_COLUMNS, (fs.map Prod.fst).contains c = true) :
    read_json (JVal.arr (objs.map JVal.obj)) = .ok (objs.map build_raw_request)
    ∧ ∀ (fs : List (String × JVal)) (c : String), c ∈ REQUIRED_COLUMNS →
        (∀ s, jget fs c = some (.str s) → rawField (build_raw_request fs) c = s)
        ∧ (jget fs c = some .null → rawField (build_raw_request fs) c = "")
        ∧ (jget fs c = none → rawField (build_raw_request fs) c = "") := by
  constructor
  · unfold read_json
    apply read_json_items_ok objs 0
    intro fs hfs
    have h := hkeys fs hfs
    unfold missingColumns
    rw [List.filter_eq_nil_iff]
    intro c hc
    rw [h c hc]
    simp
  · intro fs c hc
    fin_cases hc <;>
      exact ⟨fun s hv => by simp [rawField, build_raw_request, g_field, hv, pyStr],
        fun hv => by simp [rawField, build_raw_request, g_field, hv],
        fun hv => by simp [rawField, build_raw_request, g_field, hv]⟩

/-- Witness for C8: the one-object payload with a null `is_vip` reads
back with the literal string values and an empty `is_vip`. -/
theorem read_json_roundtrip_witness :
    read_json (JVal.arr (sampleObjs.map JVal.obj))
      = .ok [{ id_solicitud := "REQ-5001", fecha_solicitud := "2026-02-10",
               tipo_producto := "cuenta", id_cliente := "CLI-9001",
               monto_o_limite := "1000", moneda := "ARS", pais := "AR",
               is_vip := "", risk_score := "15" }] :=
  ((read_json_roundtrip sampleObjs (by decide)).1).trans (by rfl)

/-! ## Theorems: zero data rows by format (C10) -/

/-- With only empty data lines, the `DictReader` body yields no rows. -/
theorem dict_reader_rows_empty (d : Char) (header : String) (rest : List String)
    (hrest : ∀ l ∈ rest, l = "")
    (hcols : missingColumns (csvRowOfLine d header) = []) :
    dict_reader_rows d header rest = .ok [] := by
  have hfilter : (rest.map (csvRowOfLine d)).filter (fun row => !row.isEmpty) = [] := by
    rw [List.filter_eq_nil_iff]
    intro row hrow
    rcases List.mem_map.mp hrow with ⟨l, hl, rfl⟩
    rw [hrest l hl]
    simp [csvRowOfLine]
  simp [dict_reader_rows, assert_required_columns, hcols, hfilter]

/-- Blank lines are all skipped by the fixed-width loop. -/
theorem read_cobol_rows_blank (layout : List FixedWidthField) :
    ∀ (lines : List String) (n : ℕ), (∀ l ∈ lines, pyStrip l = "") →
      read_cobol_rows layout n lines = .ok []
  | [], _, _ => rfl
  | l :: rest, n, h => by
    unfold read_cobol_rows
    rw [if_pos (h l (by simp))]
    exact read_cobol_rows_blank layout rest (n + 1) (fun x hx => h x (by simp [hx]))

/-- C10: a CSV (or delimited-text) input whose header contains all
required columns but which has no data rows is read successfully as the
empty sequence, whereas a fixed-width input yielding zero data rows
(blank or no lines) always fails with the fatal input-format error. -/
theorem zero_data_rows_by_format (header : String) (rest blanks : List String) :
    ((∀ l ∈ rest, l = "") → missingColumns (csvRowOfLine ',' header) = [] →
        read_csv (header :: rest) = .ok [])
    ∧ (∀ d, (∀ l ∈ rest, l = "") → pyStrip header ≠ "" → detect_delimiter header = some d →
        missingColumns (csvRowOfLine d header) = [] →
        read_txt_delimited (header :: rest) = .ok [])
    ∧ ((∀ l ∈ blanks, pyStrip l = "") →
        read_cobol_fixed_width blanks = .error "Fixed-width input has no data rows") := by
  refine ⟨fun hrest hcols => ?_, fun d hrest hh hd hcols => ?_, fun hblank => ?_⟩
  · exact dict_reader_rows_empty ',' header rest hrest hcols
  · have hne : (header :: rest).filter (fun ln => pyStrip ln ≠ "") = [header] := by
      simp only [List.filter_cons]
      rw [if_pos (by simpa using hh)]
      congr 1
      rw [List.filter_eq_nil_iff]
      intro l hl
      rw [hrest l hl]
      decide
    unfold read_txt_delimited
    rw [hne]
    simp only [hd]
    exact dict_reader_rows_empty d header rest hrest hcols
  · unfold read_cobol_fixed_width
    rw [read_cobol_rows_blank DEFAULT_COBOL_LAYOUT blanks 1 hblank]
    rfl

/-- Witness for C10: the concrete nine-column comma header with one
empty data line succeeds with zero rows in both delimited modes, while
two blank fixed-width lines abort. -/
theorem zero_data_rows_by_format_witness :
    read_csv [csvHeader, ""] = .ok []
    ∧ read_txt_delimited [csvHeader, ""] = .ok []
    ∧ read_cobol_fixed_width ["", "   "] = .error "Fixed-width input has no data rows" :=
  ⟨(zero_data_rows_by_format csvHeader [""] ["", "   "]).1 (by decide) (by decide),
   (zero_data_rows_by_format csvHeader [""] ["", "   "]).2.1 ',' (by decide) (by decide)
     (by decide) (by decide),
   (zero_data_rows_by_format csvHeader [""] ["", "   "]).2.2 (by decide)⟩

end Workflow
